import Mathlib

/-!
Shallow embedding of the ChibiOS STM32 USB_AUDIO_I2S demo
(demos/STM32/USB_AUDIO_I2S/audio.c together with audio.h), restricted to the
parts the verified properties are about: the TIM2 start-of-frame capture
interrupt handler, the SOF capture start/stop routines, the feedback endpoint
handler, the audio pump thread body with its I2S half-transfer callback, and
the class-specific control-request bridge audio_volume_control with its
completion callbacks notify_mute and notify_volume.

Machine integers are modelled as Nat with explicit reduction modulo 2^32
where the C code's uint32_t arithmetic can overflow.  C arrays that the code
indexes with unchecked indices are modelled with Option-returning accessors,
so an out-of-bounds access surfaces as none.  The raw byte buffer
control_data is modelled as a total byte store Nat → Nat so that writes past
the end of the 8-byte C array remain expressible.
-/

namespace USBAudioI2S

/-! ## Sample Clock Monitor: TIM2 SOF-capture interrupt state (audio.c lines 63-149) -/

/-- 2^32, the modulus of the C code's uint32_t arithmetic. -/
def M32 : Nat := 4294967296

/-- The C constant UINT32_MAX. -/
def UINT32_MAX : Nat := 4294967295

/-- The wrap-corrected forward difference computed by STM32_TIM2_HANDLER:
`if (sof_last_counter < value) value - sof_last_counter
 else UINT32_MAX - sof_last_counter + value`. -/
def wrapDelta (last value : Nat) : Nat :=
  if last < value then value - last else UINT32_MAX - last + value

/-- The SOF-capture state: the file-level statics sof_last_counter, sof_delta,
sof_first, sof_delta_count and sof_feedback_data[3], together with the
audio.sof_feedback_valid flag they publish to. -/
structure SofState where
  sofLastCounter : Nat
  sofDelta : Nat
  sofFirst : Bool
  sofDeltaCount : Nat
  fb0 : Nat
  fb1 : Nat
  fb2 : Nat
  sofFeedbackValid : Bool
deriving DecidableEq

/-- One frame-boundary capture: the body of STM32_TIM2_HANDLER for an
interrupt with TIM_SR_TIF set, reading counter value `value`. -/
def tim2Capture (value : Nat) (s : SofState) : SofState :=
  let s1 :=
    if s.sofFirst then s
    else
      let d := (s.sofDelta + wrapDelta s.sofLastCounter value) % M32
      if s.sofDeltaCount = 31 then
        let f1014 := (2 * d) % M32 &&& 0xFFFFFF
        { s with sofDelta := 0, sofDeltaCount := 0,
                 fb0 := f1014 &&& 0xFF,
                 fb1 := (f1014 >>> 8) &&& 0xFF,
                 fb2 := (f1014 >>> 16) &&& 0xFF,
                 sofFeedbackValid := true }
      else
        { s with sofDelta := d, sofDeltaCount := s.sofDeltaCount + 1 }
  { s1 with sofFirst := false, sofLastCounter := value }

/-- A sequence of frame-boundary captures, earliest first. -/
def runCaptures (vs : List Nat) (s : SofState) : SofState :=
  vs.foldl (fun t v => tim2Capture v t) s

/-- start_sof_capture: the state reset performed under chSysLock (the hardware
register programming is outside the model). -/
def start_sof_capture (s : SofState) : SofState :=
  { s with sofLastCounter := 0, sofDelta := 0, sofFirst := true,
           sofDeltaCount := 0, sofFeedbackValid := false }

/-- stop_sof_capture: clears audio.sof_feedback_valid (the hardware disarm is
outside the model). -/
def stop_sof_capture (s : SofState) : SofState :=
  { s with sofFeedbackValid := false }

/-- The sum of the wrap-corrected deltas of a capture sequence, chained from
the counter value `last` seen at the previous capture. -/
def sumDeltas : Nat → List Nat → Nat
  | _, [] => 0
  | last, v :: vs => wrapDelta last v + sumDeltas v vs

/-! ## Feedback endpoint handler (audio.c lines 151-165) -/

/-- audio_feedback: the transfer it arms, as `none` (playback off, no action),
`some []` (zero-length transmission) or `some bytes` (the 3 feedback bytes). -/
def audio_feedback (playback : Bool) (s : SofState) : Option (List Nat) :=
  if playback then
    if s.sofFeedbackValid then some [s.fb0, s.fb1, s.fb2] else some []
  else none

/-! ## Buffer pump (audio.c lines 181-191 and 483-503) -/

/-- The pump's shared state: the ingress queue contents (FIFO, head first),
the dac_buffer as a byte store, and the fill pointer/size statics bufferp
(as a byte offset into dac_buffer) and buffern. -/
structure PumpState where
  queue : List Nat
  mem : Nat → Nat
  bufferp : Nat
  buffern : Nat

/-- i2s_callback: records the vacated half.  `off` and `n` are in uint16
units, so the byte offset is 2*off and the byte count buffern is n*2. -/
def i2s_callback (off n : Nat) (s : PumpState) : PumpState :=
  { s with bufferp := 2 * off, buffern := n * 2 }

/-- chIQGetFullI: the number of bytes available in the input queue. -/
def chIQGetFull (s : PumpState) : Nat := s.queue.length

/-- chIQReadTimeout with TIME_IMMEDIATE: returns (bytes read, remaining
queue); reads at most n bytes, never blocking. -/
def chIQReadTimeoutImmediate (q : List Nat) (n : Nat) : List Nat × List Nat :=
  (q.take n, q.drop n)

/-- A byte-wise copy of `data` into the store at offset `base`. -/
def copyBytes (mem : Nat → Nat) (base : Nat) (data : List Nat) : Nat → Nat :=
  fun j => if base ≤ j ∧ j < base + data.length then data.getD (j - base) 0 else mem j

/-- One resumed iteration of the pump thread Thread1: read the queue fill
level, and copy buffern bytes to bufferp only if enough bytes are queued. -/
def pump_iteration (s : PumpState) : PumpState :=
  if s.buffern ≤ chIQGetFull s then
    let r := chIQReadTimeoutImmediate s.queue s.buffern
    { s with queue := r.2, mem := copyBytes s.mem s.bufferp r.1 }
  else s

/-! ## Control-transfer bridge (audio.c lines 215-323) -/

/-- UAC request codes (audio.h). -/
def UAC_REQ_SET_CUR : Nat := 0x01
def UAC_REQ_SET_MIN : Nat := 0x02
def UAC_REQ_SET_MAX : Nat := 0x03
def UAC_REQ_SET_RES : Nat := 0x04
def UAC_REQ_GET_CUR : Nat := 0x81
def UAC_REQ_GET_MIN : Nat := 0x82
def UAC_REQ_GET_MAX : Nat := 0x83
def UAC_REQ_GET_RES : Nat := 0x84
def UAC_FU_MUTE_CONTROL : Nat := 0x01
def UAC_FU_VOLUME_CONTROL : Nat := 0x02

/-- Which completion callback a usbSetupTransfer call registered. -/
inductive ControlCallback
  | mute
  | volume
deriving DecidableEq

/-- A usbSetupTransfer(usbp, control_data, length, cb) call: the transfer
length and the completion callback (none for NULL). -/
structure SetupTransfer where
  len : Nat
  cb : Option ControlCallback
deriving DecidableEq

/-- The control-plane state touched by the bridge: the statics control_data
(a byte store; the C array is 8 bytes) and control_channel, and the
audio.mute[2] / audio.volume[2] fields (volume entries as 16-bit patterns). -/
structure CtrlState where
  control_data : Nat → Nat
  control_channel : Nat
  mute0 : Bool
  mute1 : Bool
  vol0 : Nat
  vol1 : Nat

/-- Guarded read of a 2-element C array at int index i (in bounds: 0 or 1). -/
def arr2get {α : Type} (a b : α) (i : Int) : Option α :=
  if i = 0 then some a else if i = 1 then some b else none

/-- Guarded write of a 2-element C array at int index i (in bounds: 0 or 1). -/
def arr2set {α : Type} (a b : α) (i : Int) (v : α) : Option (α × α) :=
  if i = 0 then some (v, b) else if i = 1 then some (a, v) else none

/-- Write one byte of the control_data byte store. -/
def writeByte (m : Nat → Nat) (i v : Nat) : Nat → Nat :=
  fun j => if j = i then v else m j

/-- Store a 16-bit value little-endian at byte offset `base` (an int16_t
store on this little-endian target). -/
def writeLE16 (m : Nat → Nat) (base v : Nat) : Nat → Nat :=
  writeByte (writeByte m base (v % 256)) (base + 1) (v / 256 % 256)

/-- The loop `for(i = 0; i < length; i++) ((int16_t*)control_data)[i] = v`:
len int16 elements stored at byte offsets 0, 2, ..., 2*(len-1). -/
def writeElems (m : Nat → Nat) (v : Nat) : Nat → (Nat → Nat)
  | 0 => m
  | k + 1 => writeLE16 (writeElems m v k) (2 * k) v

/-- notify_volume: the SET_CUR volume completion callback.  The all-channel
form copies from control_data+2; the single-channel form stores through
audio.volume[control_channel - 1], whose guarded access yields none when the
index is outside 0..1. -/
def notify_volume (s : CtrlState) : Option CtrlState :=
  if s.control_channel = 0xff then
    some { s with vol0 := s.control_data 2 + 256 * s.control_data 3,
                  vol1 := s.control_data 4 + 256 * s.control_data 5 }
  else
    match arr2set s.vol0 s.vol1 ((s.control_channel : Int) - 1)
        (s.control_data 0 + 256 * s.control_data 1) with
    | some (v0, v1) => some { s with vol0 := v0, vol1 := v1 }
    | none => none

/-- notify_mute: the SET_CUR mute completion callback.  A stored byte becomes
the C bool it is assigned to (true iff nonzero). -/
def notify_mute (s : CtrlState) : Option CtrlState :=
  if s.control_channel = 0xff then
    some { s with mute0 := s.control_data 1 != 0, mute1 := s.control_data 2 != 0 }
  else
    match arr2set s.mute0 s.mute1 ((s.control_channel : Int) - 1)
        (s.control_data 0 != 0) with
    | some (m0, m1) => some { s with mute0 := m0, mute1 := m1 }
    | none => none

/-- Models the USB driver's control data stage for an OUT request: the
received bytes land in the buffer handed to usbSetupTransfer (control_data)
before the completion callback runs. -/
def receiveData (s : CtrlState) (d : Nat → Nat) (len : Nat) : CtrlState :=
  { s with control_data := fun j => if j < len then d j else s.control_data j }

/-- What one audio_volume_control call produced: its C return value, the
updated statics, and the usbSetupTransfer it issued, if any. -/
structure ACOut where
  handled : Bool
  st : CtrlState
  xfer : Option SetupTransfer

/-- The switch's default label: return false, nothing touched. -/
def stage_default (s : CtrlState) : Option ACOut := some ⟨false, s, none⟩

/-- The case UAC_REQ_SET_CUR body (the last labelled body before default). -/
def stage_set_cur (ctrl channel length : Nat) (s : CtrlState) : Option ACOut :=
  if ctrl = UAC_FU_MUTE_CONTROL then
    some ⟨true, { s with control_channel := channel },
          some ⟨length, some ControlCallback.mute⟩⟩
  else if ctrl = UAC_FU_VOLUME_CONTROL then
    some ⟨true, { s with control_channel := channel },
          some ⟨length, some ControlCallback.volume⟩⟩
  else stage_default s

/-- The case UAC_REQ_GET_CUR body; without a break it falls through into the
UAC_REQ_SET_CUR body.  The single-channel forms read mute[channel-1] /
volume[channel-1] through the guarded accessor. -/
def stage_get_cur (ctrl channel length : Nat) (s : CtrlState) : Option ACOut :=
  if ctrl = UAC_FU_MUTE_CONTROL then
    if channel = 0xff then
      some ⟨true,
        { s with control_data :=
            writeByte (writeByte (writeByte s.control_data 0 0)
              1 (cond s.mute0 1 0)) 2 (cond s.mute1 1 0) },
        some ⟨length, none⟩⟩
    else
      match arr2get s.mute0 s.mute1 ((channel : Int) - 1) with
      | some b => some ⟨true,
          { s with control_data := writeByte s.control_data 0 (cond b 1 0) },
          some ⟨length, none⟩⟩
      | none => none
  else if ctrl = UAC_FU_VOLUME_CONTROL then
    if channel = 0xff then
      some ⟨true,
        { s with control_data :=
            writeLE16 (writeLE16 (writeLE16 s.control_data 0 0) 2 s.vol0) 4 s.vol1 },
        some ⟨length, none⟩⟩
    else
      match arr2get s.vol0 s.vol1 ((channel : Int) - 1) with
      | some v => some ⟨true,
          { s with control_data := writeLE16 s.control_data 0 v },
          some ⟨length, none⟩⟩
      | none => none
  else stage_set_cur ctrl channel length s

/-- The case UAC_REQ_GET_RES body; falls through into UAC_REQ_GET_CUR.
128 is the 0.5 dB resolution step in the 8.8 format. -/
def stage_get_res (ctrl channel length : Nat) (s : CtrlState) : Option ACOut :=
  if ctrl = UAC_FU_VOLUME_CONTROL then
    some ⟨true, { s with control_data := writeElems s.control_data 128 length },
          some ⟨length, none⟩⟩
  else stage_get_cur ctrl channel length s

/-- The case UAC_REQ_GET_MIN body; falls through into UAC_REQ_GET_RES.
40960 is the uint16 bit pattern of the int16 -96*256 = -24576. -/
def stage_get_min (ctrl channel length : Nat) (s : CtrlState) : Option ACOut :=
  if ctrl = UAC_FU_VOLUME_CONTROL then
    some ⟨true, { s with control_data := writeElems s.control_data 40960 length },
          some ⟨length, none⟩⟩
  else stage_get_res ctrl channel length s

/-- The case UAC_REQ_GET_MAX body; falls through into UAC_REQ_GET_MIN. -/
def stage_get_max (ctrl channel length : Nat) (s : CtrlState) : Option ACOut :=
  if ctrl = UAC_FU_VOLUME_CONTROL then
    some ⟨true, { s with control_data := writeElems s.control_data 0 length },
          some ⟨length, none⟩⟩
  else stage_get_min ctrl channel length s

/-- The shared body of the case labels UAC_REQ_SET_MAX, UAC_REQ_SET_MIN and
UAC_REQ_SET_RES; falls through into UAC_REQ_GET_MAX. -/
def stage_set_minmaxres (ctrl channel length : Nat) (s : CtrlState) : Option ACOut :=
  if ctrl = UAC_FU_VOLUME_CONTROL then
    some ⟨true, s, some ⟨length, none⟩⟩
  else stage_get_max ctrl channel length s

/-- audio_volume_control: the switch(req) dispatch.  The C switch has no
break statements, so each body that does not return continues into the next
body in source order, ending at default (return false). -/
def audio_volume_control (req ctrl channel length : Nat) (s : CtrlState) :
    Option ACOut :=
  if req = UAC_REQ_SET_MAX ∨ req = UAC_REQ_SET_MIN ∨ req = UAC_REQ_SET_RES then
    stage_set_minmaxres ctrl channel length s
  else if req = UAC_REQ_GET_MAX then stage_get_max ctrl channel length s
  else if req = UAC_REQ_GET_MIN then stage_get_min ctrl channel length s
  else if req = UAC_REQ_GET_RES then stage_get_res ctrl channel length s
  else if req = UAC_REQ_GET_CUR then stage_get_cur ctrl channel length s
  else if req = UAC_REQ_SET_CUR then stage_set_cur ctrl channel length s
  else stage_default s

/-! ## Concrete states used by witnesses and counterexamples -/

/-- A concrete SOF state mid-window: last counter 0xFFFFFFF0, not first. -/
def sofC2 : SofState := ⟨4294967280, 0, false, 0, 0, 0, 0, false⟩

/-- A concrete SOF state with arbitrary nonzero fields. -/
def sofA : SofState := ⟨7, 7, false, 7, 7, 7, 7, true⟩

/-- A concrete control state: zeroed buffer, both channels unmuted. -/
def ctrlA : CtrlState := ⟨fun _ => 0, 0, false, false, 0, 0⟩

/-- A concrete pump state: 5 queued bytes, memory filled with 9. -/
def pumpA : PumpState := ⟨[11, 22, 33, 44, 55], fun _ => 9, 0, 0⟩

/-! ## Helper lemmas -/

lemma runCaptures_nil (s : SofState) : runCaptures [] s = s := rfl

lemma runCaptures_cons (v : Nat) (vs : List Nat) (s : SofState) :
    runCaptures (v :: vs) s = runCaptures vs (tim2Capture v s) := rfl

lemma runCaptures_append_single (ws : List Nat) (vl : Nat) (s : SofState) :
    runCaptures (ws ++ [vl]) s = tim2Capture vl (runCaptures ws s) := by
  simp [runCaptures, List.foldl_append]

lemma tim2Capture_first (v : Nat) (t : SofState) (h : t.sofFirst = true) :
    tim2Capture v t = { t with sofFirst := false, sofLastCounter := v } := by
  simp [tim2Capture, h]

lemma tim2Capture_not31 (v : Nat) (t : SofState) (h1 : t.sofFirst = false)
    (h2 : t.sofDeltaCount ≠ 31) :
    tim2Capture v t = { t with
      sofDelta := (t.sofDelta + wrapDelta t.sofLastCounter v) % M32,
      sofDeltaCount := t.sofDeltaCount + 1,
      sofFirst := false, sofLastCounter := v } := by
  simp [tim2Capture, h1, h2]

lemma tim2Capture_at31 (v : Nat) (t : SofState) (h1 : t.sofFirst = false)
    (h2 : t.sofDeltaCount = 31) :
    tim2Capture v t = { t with
      sofDelta := 0, sofDeltaCount := 0, sofFirst := false, sofLastCounter := v,
      fb0 := ((2 * ((t.sofDelta + wrapDelta t.sofLastCounter v) % M32)) % M32
               &&& 0xFFFFFF) &&& 0xFF,
      fb1 := (((2 * ((t.sofDelta + wrapDelta t.sofLastCounter v) % M32)) % M32
               &&& 0xFFFFFF) >>> 8) &&& 0xFF,
      fb2 := (((2 * ((t.sofDelta + wrapDelta t.sofLastCounter v) % M32)) % M32
               &&& 0xFFFFFF) >>> 16) &&& 0xFF,
      sofFeedbackValid := true } := by
  simp [tim2Capture, h1, h2]

lemma sumDeltas_append (ws : List Nat) : ∀ (last vl : Nat),
    sumDeltas last (ws ++ [vl]) = sumDeltas last ws + wrapDelta (ws.getLastD last) vl := by
  induction ws with
  | nil => intro last vl; simp [sumDeltas]
  | cons w tl ih =>
      intro last vl
      show wrapDelta last w + sumDeltas w (tl ++ [vl]) = _
      rw [ih w vl, List.getLastD_cons]
      show _ = wrapDelta last w + sumDeltas w tl + wrapDelta (tl.getLastD w) vl
      omega

lemma runCaptures_accum (vs : List Nat) : ∀ (t : SofState), t.sofFirst = false →
    t.sofDelta < M32 → t.sofDeltaCount + vs.length ≤ 31 →
    (runCaptures vs t).sofDelta = (t.sofDelta + sumDeltas t.sofLastCounter vs) % M32 ∧
    (runCaptures vs t).sofDeltaCount = t.sofDeltaCount + vs.length ∧
    (runCaptures vs t).sofLastCounter = vs.getLastD t.sofLastCounter ∧
    (runCaptures vs t).sofFirst = false ∧
    (runCaptures vs t).fb0 = t.fb0 ∧ (runCaptures vs t).fb1 = t.fb1 ∧
    (runCaptures vs t).fb2 = t.fb2 ∧
    (runCaptures vs t).sofFeedbackValid = t.sofFeedbackValid := by
  induction vs with
  | nil =>
      intro t h1 h2 h3
      refine ⟨?_, rfl, rfl, h1, rfl, rfl, rfl, rfl⟩
      show t.sofDelta = (t.sofDelta + 0) % M32
      rw [Nat.add_zero, Nat.mod_eq_of_lt h2]
  | cons v tl ih =>
      intro t h1 h2 h3
      simp only [List.length_cons] at h3
      have hc : t.sofDeltaCount ≠ 31 := by omega
      rw [runCaptures_cons, tim2Capture_not31 v t h1 hc]
      obtain ⟨d1, d2, d3, d4, d5, d6, d7, d8⟩ :=
        ih { t with
              sofDelta := (t.sofDelta + wrapDelta t.sofLastCounter v) % M32,
              sofDeltaCount := t.sofDeltaCount + 1,
              sofFirst := false, sofLastCounter := v }
          rfl (Nat.mod_lt _ (by norm_num [M32]))
          (show t.sofDeltaCount + 1 + tl.length ≤ 31 by omega)
      refine ⟨?_, ?_, ?_, d4, d5, d6, d7, d8⟩
      · rw [d1]
        show ((t.sofDelta + wrapDelta t.sofLastCounter v) % M32 + sumDeltas v tl) % M32
          = (t.sofDelta + sumDeltas t.sofLastCounter (v :: tl)) % M32
        rw [Nat.mod_add_mod, Nat.add_assoc]
        rfl
      · rw [d2]
        show t.sofDeltaCount + 1 + tl.length = t.sofDeltaCount + (tl.length + 1)
        omega
      · rw [d3]
        show tl.getLastD v = (v :: tl).getLastD t.sofLastCounter
        rw [List.getLastD_cons]

/-- The masked left-shift of the mod-2^32 accumulated delta equals the masked
left-shift of the untruncated sum. -/
lemma shift_mask_eq (D : Nat) :
    (2 * (D % M32)) % M32 &&& 0xFFFFFF = (2 * D) % 2 ^ 24 := by
  have h1 : (0xFFFFFF : Nat) = 2 ^ 24 - 1 := by norm_num
  have h2 : (2 : Nat) ^ 24 ∣ M32 := by decide
  rw [h1, Nat.and_pow_two_sub_one_eq_mod, Nat.mod_mod_of_dvd _ h2]
  exact Nat.ModEq.mul_left 2 ((Nat.mod_modEq D M32).of_dvd h2)

lemma and_255_eq_mod (x : Nat) : x &&& 0xFF = x % 256 := by
  have h1 : (0xFF : Nat) = 2 ^ 8 - 1 := by norm_num
  rw [h1, Nat.and_pow_two_sub_one_eq_mod]

lemma writeElems_ge (m : Nat → Nat) (v : Nat) : ∀ (len j : Nat), 2 * len ≤ j →
    writeElems m v len j = m j := by
  intro len
  induction len with
  | zero => intro j _; rfl
  | succ k ih =>
      intro j hj
      simp only [writeElems, writeLE16, writeByte]
      rw [if_neg (by omega), if_neg (by omega)]
      exact ih j (by omega)

lemma writeElems_lo (m : Nat → Nat) (v : Nat) : ∀ (len i : Nat), i < len →
    writeElems m v len (2 * i) = v % 256 := by
  intro len
  induction len with
  | zero => intro i hi; omega
  | succ k ih =>
      intro i hi
      simp only [writeElems, writeLE16, writeByte]
      rw [if_neg (by omega)]
      by_cases hik : i = k
      · rw [if_pos (by omega)]
      · rw [if_neg (by omega)]
        exact ih i (by omega)

lemma writeElems_hi (m : Nat → Nat) (v : Nat) : ∀ (len i : Nat), i < len →
    writeElems m v len (2 * i + 1) = v / 256 % 256 := by
  intro len
  induction len with
  | zero => intro i hi; omega
  | succ k ih =>
      intro i hi
      simp only [writeElems, writeLE16, writeByte]
      by_cases hik : i = k
      · rw [if_pos (by omega)]
      · rw [if_neg (by omega), if_neg (by omega)]
        exact ih i (by omega)

/-- A full measurement window: from any state at the start of a window
(not-first, window count 0, accumulated delta 0), 32 captures publish the
encoded feedback and reset the window. -/
lemma runCaptures_window_from (t : SofState) (us : List Nat)
    (h : us.length = 32) (h1 : t.sofFirst = false) (h2 : t.sofDeltaCount = 0)
    (h3 : t.sofDelta = 0) :
    (runCaptures us t).fb0
      = 2 * sumDeltas t.sofLastCounter us % 2 ^ 24 % 256 ∧
    (runCaptures us t).fb1
      = 2 * sumDeltas t.sofLastCounter us % 2 ^ 24 / 256 % 256 ∧
    (runCaptures us t).fb2
      = 2 * sumDeltas t.sofLastCounter us % 2 ^ 24 / 65536 % 256 ∧
    (runCaptures us t).sofDelta = 0 ∧
    (runCaptures us t).sofDeltaCount = 0 ∧
    (runCaptures us t).sofFeedbackValid = true := by
  have hne : us ≠ [] := by
    intro hv; rw [hv] at h; exact absurd h (by decide)
  obtain ⟨ws, vl, rfl, hlen⟩ : ∃ ws vl, us = ws ++ [vl] ∧ ws.length = 31 := by
    refine ⟨us.dropLast, us.getLast hne, (List.dropLast_append_getLast hne).symm, ?_⟩
    rw [List.length_dropLast, h]
  rw [runCaptures_append_single]
  obtain ⟨d1, d2, d3, d4, _, _, _, _⟩ :=
    runCaptures_accum ws t h1 (by rw [h3]; norm_num [M32]) (by omega)
  rw [tim2Capture_at31 vl _ d4 (by rw [d2, h2]; omega)]
  have hD : ((runCaptures ws t).sofDelta +
      wrapDelta (runCaptures ws t).sofLastCounter vl) % M32
      = sumDeltas t.sofLastCounter (ws ++ [vl]) % M32 := by
    rw [d1, d3, h3, Nat.zero_add, Nat.mod_add_mod, sumDeltas_append]
  refine ⟨?_, ?_, ?_, rfl, rfl, rfl⟩
  · show ((2 * ((_ + wrapDelta _ vl) % M32)) % M32 &&& 0xFFFFFF) &&& 0xFF = _
    rw [hD, shift_mask_eq, and_255_eq_mod]
  · show (((2 * ((_ + wrapDelta _ vl) % M32)) % M32 &&& 0xFFFFFF) >>> 8) &&& 0xFF = _
    rw [hD, shift_mask_eq, Nat.shiftRight_eq_div_pow, and_255_eq_mod]
  · show (((2 * ((_ + wrapDelta _ vl) % M32)) % M32 &&& 0xFFFFFF) >>> 16) &&& 0xFF = _
    rw [hD, shift_mask_eq, Nat.shiftRight_eq_div_pow, and_255_eq_mod]

/-! ## C1 — feedback value after a 32-capture window -/

/-- C1: starting from a capture restart, the capture that accumulates the
32nd wrap-corrected delta (window count 31) publishes the three feedback
bytes as the little-endian encoding of ((sum of the 32 deltas) << 1)
& 0xFFFFFF, resets the accumulated delta and window count to 0 and sets the
feedback-valid flag; every other non-first capture just increments the
window count and leaves the feedback bytes and flag unchanged. -/
theorem C1_feedback_window (s : SofState) (v0 : Nat) (vs : List Nat)
    (h : vs.length = 32) :
    (runCaptures (v0 :: vs) (start_sof_capture s)).fb0
      = 2 * sumDeltas v0 vs % 2 ^ 24 % 256 ∧
    (runCaptures (v0 :: vs) (start_sof_capture s)).fb1
      = 2 * sumDeltas v0 vs % 2 ^ 24 / 256 % 256 ∧
    (runCaptures (v0 :: vs) (start_sof_capture s)).fb2
      = 2 * sumDeltas v0 vs % 2 ^ 24 / 65536 % 256 ∧
    (runCaptures (v0 :: vs) (start_sof_capture s)).sofDelta = 0 ∧
    (runCaptures (v0 :: vs) (start_sof_capture s)).sofDeltaCount = 0 ∧
    (runCaptures (v0 :: vs) (start_sof_capture s)).sofFeedbackValid = true ∧
    (∀ (t : SofState) (v : Nat), t.sofFirst = false → t.sofDeltaCount ≠ 31 →
      (tim2Capture v t).sofDeltaCount = t.sofDeltaCount + 1 ∧
      (tim2Capture v t).fb0 = t.fb0 ∧ (tim2Capture v t).fb1 = t.fb1 ∧
      (tim2Capture v t).fb2 = t.fb2 ∧
      (tim2Capture v t).sofFeedbackValid = t.sofFeedbackValid) ∧
    (∀ (t : SofState) (us : List Nat), us.length = 32 → t.sofFirst = false →
      t.sofDeltaCount = 0 → t.sofDelta = 0 →
      (runCaptures us t).fb0
        = 2 * sumDeltas t.sofLastCounter us % 2 ^ 24 % 256 ∧
      (runCaptures us t).fb1
        = 2 * sumDeltas t.sofLastCounter us % 2 ^ 24 / 256 % 256 ∧
      (runCaptures us t).fb2
        = 2 * sumDeltas t.sofLastCounter us % 2 ^ 24 / 65536 % 256 ∧
      (runCaptures us t).sofDelta = 0 ∧
      (runCaptures us t).sofDeltaCount = 0 ∧
      (runCaptures us t).sofFeedbackValid = true) := by
  have hstep : ∀ (t : SofState) (v : Nat), t.sofFirst = false →
      t.sofDeltaCount ≠ 31 →
      (tim2Capture v t).sofDeltaCount = t.sofDeltaCount + 1 ∧
      (tim2Capture v t).fb0 = t.fb0 ∧ (tim2Capture v t).fb1 = t.fb1 ∧
      (tim2Capture v t).fb2 = t.fb2 ∧
      (tim2Capture v t).sofFeedbackValid = t.sofFeedbackValid := by
    intro t v h1 h2
    rw [tim2Capture_not31 v t h1 h2]
    exact ⟨rfl, rfl, rfl, rfl, rfl⟩
  rw [runCaptures_cons, tim2Capture_first v0 (start_sof_capture s) rfl]
  obtain ⟨w1, w2, w3, w4, w5, w6⟩ :=
    runCaptures_window_from
      { start_sof_capture s with sofFirst := false, sofLastCounter := v0 }
      vs h rfl rfl rfl
  exact ⟨w1, w2, w3, w4, w5, w6, hstep,
    fun t us hu h1 h2 h3 => runCaptures_window_from t us hu h1 h2 h3⟩

theorem C1_feedback_window_witness :
    (runCaptures (0 :: List.range 32) (start_sof_capture sofA)).sofFeedbackValid
      = true :=
  (C1_feedback_window sofA 0 (List.range 32) (by decide)).2.2.2.2.2.1

/-! ## C6 — restart invalidates the feedback until a full window elapses -/

/-- C6: start_sof_capture resets the whole capture state (last counter,
accumulated delta, window count, first-sample flag) and clears the
feedback-valid flag; stop_sof_capture clears the flag too; after a restart
the flag stays false — and the feedback handler keeps arming zero-length
transmissions — through any capture sequence of up to 32 captures, and a
first capture followed by 32 accumulating captures (32 complete windows)
makes it true. -/
theorem C6_restart (s : SofState) :
    (start_sof_capture s).sofLastCounter = 0 ∧
    (start_sof_capture s).sofDelta = 0 ∧
    (start_sof_capture s).sofDeltaCount = 0 ∧
    (start_sof_capture s).sofFirst = true ∧
    (start_sof_capture s).sofFeedbackValid = false ∧
    (stop_sof_capture s).sofFeedbackValid = false ∧
    (∀ vs : List Nat, vs.length ≤ 32 →
      (runCaptures vs (start_sof_capture s)).sofFeedbackValid = false ∧
      audio_feedback true (runCaptures vs (start_sof_capture s)) = some []) ∧
    (∀ (v0 vl : Nat) (ws : List Nat), ws.length = 31 →
      (runCaptures (v0 :: (ws ++ [vl])) (start_sof_capture s)).sofFeedbackValid
        = true) := by
  refine ⟨rfl, rfl, rfl, rfl, rfl, rfl, ?_, ?_⟩
  · intro vs hlen
    cases vs with
    | nil => exact ⟨rfl, rfl⟩
    | cons v0 tl =>
        rw [runCaptures_cons, tim2Capture_first v0 (start_sof_capture s) rfl]
        simp only [List.length_cons] at hlen
        obtain ⟨_, _, _, _, _, _, _, d8⟩ :=
          runCaptures_accum tl
            { start_sof_capture s with sofFirst := false, sofLastCounter := v0 }
            rfl (show (0 : Nat) < M32 by norm_num [M32])
            (show 0 + tl.length ≤ 31 by omega)
        have hv : (runCaptures tl { start_sof_capture s with sofFirst := false, sofLastCounter := v0 }).sofFeedbackValid = false := d8.trans rfl
        refine ⟨hv, ?_⟩
        simp [audio_feedback, hv]
  · intro v0 vl ws hws
    rw [runCaptures_cons, tim2Capture_first v0 (start_sof_capture s) rfl]
    exact (runCaptures_window_from
      { start_sof_capture s with sofFirst := false, sofLastCounter := v0 }
      (ws ++ [vl]) (by simp [hws]) rfl rfl rfl).2.2.2.2.2

/-! ## C2 — wrap-corrected delta -/

/-- C2 counterexample: at the claim's own input (last = 0xFFFFFFF0,
value = 0xA, mid-window state) the code adds 25 to the accumulated delta,
not the claimed 0xF + 0xA + 1 = 26: the else branch computes
UINT32_MAX - last + value, which is one less than the true modular
difference. -/
theorem C2_counterexample :
    (tim2Capture 10 sofC2).sofDelta = 25 ∧ (25 : Nat) ≠ 26 := by
  constructor
  · decide
  · decide

/-- C2 amended: on every non-first capture with an unfinished window, the
value added to the accumulated delta (mod 2^32) is
`value > last ? value - last : (UINT32_MAX - last) + value` — the strict
comparison, and no +1 on the wrapped branch, so the claim's example input
yields 25, not 26. -/
theorem C2_wrap_delta (s : SofState) (v : Nat) (h1 : s.sofFirst = false)
    (h2 : s.sofDeltaCount ≠ 31) :
    (tim2Capture v s).sofDelta =
      (s.sofDelta + (if s.sofLastCounter < v then v - s.sofLastCounter
                     else UINT32_MAX - s.sofLastCounter + v)) % M32 ∧
    wrapDelta 4294967280 10 = 25 := by
  refine ⟨?_, by decide⟩
  rw [tim2Capture_not31 v s h1 h2]
  simp [wrapDelta]

theorem C2_wrap_delta_witness :
    (tim2Capture 10 sofC2).sofDelta = 25 :=
  (C2_wrap_delta sofC2 10 rfl (by decide)).1.trans (by decide)

/-! ## C4 — feedback endpoint slot handler -/

/-- C4: the feedback-endpoint handler arms nothing when playback is off,
arms exactly the 3 feedback bytes when playback is on and the feedback is
valid, and arms a zero-length transmission when playback is on and the
feedback is not yet valid. -/
theorem C4_feedback_slot (s : SofState) :
    audio_feedback false s = none ∧
    audio_feedback true { s with sofFeedbackValid := true } =
      some [s.fb0, s.fb1, s.fb2] ∧
    [s.fb0, s.fb1, s.fb2].length = 3 ∧
    audio_feedback true { s with sofFeedbackValid := false } = some [] :=
  ⟨rfl, rfl, rfl, rfl⟩

/-! ## C5 — buffer pump underrun / copy -/

/-- C5: after the I2S half-transfer callback records the vacated half, a
resumed pump iteration performs no copy at all when fewer bytes are queued
than the half requires, and otherwise removes exactly buffern bytes from the
queue front and writes them, in order, into the recorded half, touching no
other memory. -/
theorem C5_pump_copy (off n : Nat) (s : PumpState) :
    (s.queue.length < n * 2 →
      pump_iteration (i2s_callback off n s) = i2s_callback off n s) ∧
    (n * 2 ≤ s.queue.length →
      (pump_iteration (i2s_callback off n s)).queue = s.queue.drop (n * 2) ∧
      (s.queue.take (n * 2)).length = n * 2 ∧
      (∀ j, j < n * 2 →
        (pump_iteration (i2s_callback off n s)).mem (2 * off + j) =
          s.queue.getD j 0) ∧
      (∀ j, j < 2 * off ∨ 2 * off + n * 2 ≤ j →
        (pump_iteration (i2s_callback off n s)).mem j = s.mem j)) := by
  have htake : n * 2 ≤ s.queue.length → (s.queue.take (n * 2)).length = n * 2 := by
    intro h; simp [List.length_take]; omega
  constructor
  · intro h
    simp only [pump_iteration, i2s_callback, chIQGetFull]
    rw [if_neg (by omega)]
  · intro h
    simp only [pump_iteration, i2s_callback, chIQGetFull, chIQReadTimeoutImmediate]
    rw [if_pos (by omega)]
    refine ⟨rfl, htake h, ?_, ?_⟩
    · intro j hj
      simp only [copyBytes]
      have hcond : 2 * off ≤ 2 * off + j ∧
          2 * off + j < 2 * off + (s.queue.take (n * 2)).length := by
        rw [htake h]; omega
      rw [if_pos hcond]
      have hidx : 2 * off + j - (2 * off) = j := by omega
      rw [hidx, List.getD_eq_getElem?_getD, List.getD_eq_getElem?_getD,
          List.getElem?_take, if_pos hj]
    · intro j hj
      simp only [copyBytes]
      rw [if_neg (by rw [htake h]; omega)]

/-! ## C3 — unsupported request handling and the missing-break fallthrough -/

/-- C3 counterexample: a SET_MAX request for the Mute control — one of the
claim's own examples of an "unsupported" combination — is handled (returns
true): the break-less switch falls from the SET_MAX body through GET_MAX,
GET_MIN and GET_RES into the GET_CUR body, whose Mute branch fires. -/
theorem C3_counterexample :
    (audio_volume_control 0x03 0x01 1 1 ctrlA).map (fun o => o.handled) =
      some true := rfl

lemma stage_set_cur_ne (ctrl channel length : Nat) (s st : CtrlState)
    (x : Option SetupTransfer) (hctrl : ctrl = 1 ∨ ctrl = 2) :
    stage_set_cur ctrl channel length s ≠ some ⟨false, st, x⟩ := by
  rcases hctrl with rfl | rfl <;> intro hcontra <;>
    simp [stage_set_cur, UAC_FU_MUTE_CONTROL, UAC_FU_VOLUME_CONTROL] at hcontra

lemma stage_get_cur_mute_eq (channel length : Nat) (s : CtrlState) :
    stage_get_cur 1 channel length s =
      if channel = 0xff then
        some ⟨true, { s with control_data := writeByte (writeByte (writeByte s.control_data 0 0) 1 (cond s.mute0 1 0)) 2 (cond s.mute1 1 0) }, some ⟨length, none⟩⟩
      else
        match arr2get s.mute0 s.mute1 ((channel : Int) - 1) with
        | some b => some ⟨true, { s with control_data := writeByte s.control_data 0 (cond b 1 0) }, some ⟨length, none⟩⟩
        | none => none := rfl

lemma stage_get_cur_vol_eq (channel length : Nat) (s : CtrlState) :
    stage_get_cur 2 channel length s =
      if channel = 0xff then
        some ⟨true, { s with control_data := writeLE16 (writeLE16 (writeLE16 s.control_data 0 0) 2 s.vol0) 4 s.vol1 }, some ⟨length, none⟩⟩
      else
        match arr2get s.vol0 s.vol1 ((channel : Int) - 1) with
        | some v => some ⟨true, { s with control_data := writeLE16 s.control_data 0 v }, some ⟨length, none⟩⟩
        | none => none := rfl

lemma stage_get_cur_ne (ctrl channel length : Nat) (s st : CtrlState)
    (x : Option SetupTransfer) (hctrl : ctrl = 1 ∨ ctrl = 2) :
    stage_get_cur ctrl channel length s ≠ some ⟨false, st, x⟩ := by
  rcases hctrl with rfl | rfl <;> intro hcontra
  · rw [stage_get_cur_mute_eq] at hcontra
    split at hcontra
    · simp at hcontra
    · split at hcontra <;> simp at hcontra
  · rw [stage_get_cur_vol_eq] at hcontra
    split at hcontra
    · simp at hcontra
    · split at hcontra <;> simp at hcontra

lemma stage_get_res_ne (ctrl channel length : Nat) (s st : CtrlState)
    (x : Option SetupTransfer) (hctrl : ctrl = 1 ∨ ctrl = 2) :
    stage_get_res ctrl channel length s ≠ some ⟨false, st, x⟩ := by
  rcases hctrl with rfl | rfl
  · exact stage_get_cur_ne 1 channel length s st x (Or.inl rfl)
  · intro hcontra
    simp [stage_get_res, UAC_FU_VOLUME_CONTROL] at hcontra

lemma stage_get_min_ne (ctrl channel length : Nat) (s st : CtrlState)
    (x : Option SetupTransfer) (hctrl : ctrl = 1 ∨ ctrl = 2) :
    stage_get_min ctrl channel length s ≠ some ⟨false, st, x⟩ := by
  rcases hctrl with rfl | rfl
  · exact stage_get_res_ne 1 channel length s st x (Or.inl rfl)
  · intro hcontra
    simp [stage_get_min, UAC_FU_VOLUME_CONTROL] at hcontra

lemma stage_get_max_ne (ctrl channel length : Nat) (s st : CtrlState)
    (x : Option SetupTransfer) (hctrl : ctrl = 1 ∨ ctrl = 2) :
    stage_get_max ctrl channel length s ≠ some ⟨false, st, x⟩ := by
  rcases hctrl with rfl | rfl
  · exact stage_get_min_ne 1 channel length s st x (Or.inl rfl)
  · intro hcontra
    simp [stage_get_max, UAC_FU_VOLUME_CONTROL] at hcontra

lemma stage_set_minmaxres_ne (ctrl channel length : Nat) (s st : CtrlState)
    (x : Option SetupTransfer) (hctrl : ctrl = 1 ∨ ctrl = 2) :
    stage_set_minmaxres ctrl channel length s ≠ some ⟨false, st, x⟩ := by
  rcases hctrl with rfl | rfl
  · exact stage_get_max_ne 1 channel length s st x (Or.inl rfl)
  · intro hcontra
    simp [stage_set_minmaxres, UAC_FU_VOLUME_CONTROL] at hcontra

/-- C3 amended: the bridge returns false ("unsupported") with the state
unchanged and no transfer armed exactly when the request code is none of the
eight UAC codes or the control selector is neither Mute nor Volume; because
of the missing breaks, SET_MIN/SET_MAX/SET_RES and GET_MAX/GET_MIN/GET_RES
with the Mute control are instead handled by the GET_CUR Mute branch. -/
theorem C3_unsupported_iff (req ctrl channel length : Nat) (s : CtrlState) :
    audio_volume_control req ctrl channel length s = some ⟨false, s, none⟩ ↔
      (¬ (req = UAC_REQ_SET_CUR ∨ req = UAC_REQ_SET_MIN ∨ req = UAC_REQ_SET_MAX ∨
          req = UAC_REQ_SET_RES ∨ req = UAC_REQ_GET_CUR ∨ req = UAC_REQ_GET_MIN ∨
          req = UAC_REQ_GET_MAX ∨ req = UAC_REQ_GET_RES) ∨
        (ctrl ≠ UAC_FU_MUTE_CONTROL ∧ ctrl ≠ UAC_FU_VOLUME_CONTROL)) := by
  constructor
  · intro h
    by_contra hc
    have hreq : req = UAC_REQ_SET_CUR ∨ req = UAC_REQ_SET_MIN ∨ req = UAC_REQ_SET_MAX ∨
        req = UAC_REQ_SET_RES ∨ req = UAC_REQ_GET_CUR ∨ req = UAC_REQ_GET_MIN ∨
        req = UAC_REQ_GET_MAX ∨ req = UAC_REQ_GET_RES := by tauto
    have hctrl0 : ctrl = UAC_FU_MUTE_CONTROL ∨ ctrl = UAC_FU_VOLUME_CONTROL := by tauto
    have hctrl : ctrl = 1 ∨ ctrl = 2 := by
      simpa [UAC_FU_MUTE_CONTROL, UAC_FU_VOLUME_CONTROL] using hctrl0
    clear hc hctrl0
    rcases hreq with rfl | rfl | rfl | rfl | rfl | rfl | rfl | rfl
    · exact stage_set_cur_ne ctrl channel length s s none hctrl h
    · exact stage_set_minmaxres_ne ctrl channel length s s none hctrl h
    · exact stage_set_minmaxres_ne ctrl channel length s s none hctrl h
    · exact stage_set_minmaxres_ne ctrl channel length s s none hctrl h
    · exact stage_get_cur_ne ctrl channel length s s none hctrl h
    · exact stage_get_min_ne ctrl channel length s s none hctrl h
    · exact stage_get_max_ne ctrl channel length s s none hctrl h
    · exact stage_get_res_ne ctrl channel length s s none hctrl h
  · intro hor
    rcases hor with hnot | ⟨hc1, hc2⟩
    · push_neg at hnot
      obtain ⟨n1, n2, n3, n4, n5, n6, n7, n8⟩ := hnot
      simp only [UAC_REQ_SET_CUR, UAC_REQ_SET_MIN, UAC_REQ_SET_MAX,
        UAC_REQ_SET_RES, UAC_REQ_GET_CUR, UAC_REQ_GET_MIN, UAC_REQ_GET_MAX,
        UAC_REQ_GET_RES] at n1 n2 n3 n4 n5 n6 n7 n8
      simp [audio_volume_control, stage_default, UAC_REQ_SET_CUR, UAC_REQ_SET_MIN,
        UAC_REQ_SET_MAX, UAC_REQ_SET_RES, UAC_REQ_GET_CUR, UAC_REQ_GET_MIN,
        UAC_REQ_GET_MAX, UAC_REQ_GET_RES, n1, n2, n3, n4, n5, n6, n7, n8]
    · simp only [audio_volume_control]
      split_ifs <;>
        simp [stage_set_minmaxres, stage_get_max, stage_get_min, stage_get_res,
          stage_get_cur, stage_set_cur, stage_default, hc1, hc2]

/-! ## C7 — all-channel mute round trip -/

/-- C7: an all-channel (selector 0xFF) mute SET_CUR stages a 3-byte transfer
with the mute completion callback; once the data stage has delivered bytes
[_, 1, 0], the callback sets mute = [true, false]; a subsequent all-channel
mute GET_CUR is handled and stages the 3 bytes [0, 1, 0]. -/
theorem C7_mute_roundtrip (s : CtrlState) (d : Nat → Nat) (h1 : d 1 = 1)
    (h2 : d 2 = 0) :
    audio_volume_control 0x01 0x01 0xff 3 s =
      some ⟨true, { s with control_channel := 0xff },
            some ⟨3, some ControlCallback.mute⟩⟩ ∧
    ∃ s3 : CtrlState,
      notify_mute (receiveData { s with control_channel := 0xff } d 3) = some s3 ∧
      s3.mute0 = true ∧ s3.mute1 = false ∧
      (audio_volume_control 0x81 0x01 0xff 3 s3).map
          (fun o => (o.handled, o.st.control_data 0, o.st.control_data 1,
                     o.st.control_data 2)) =
        some (true, 0, 1, 0) := by
  refine ⟨rfl, ?_⟩
  refine ⟨_, rfl, ?_, ?_, ?_⟩
  · show ((if (1 : Nat) < 3 then d 1 else s.control_data 1) != 0) = true
    simp [h1]
  · show ((if (2 : Nat) < 3 then d 2 else s.control_data 2) != 0) = false
    simp [h2]
  · simp [audio_volume_control, stage_get_cur, UAC_REQ_SET_MAX,
      UAC_REQ_SET_MIN, UAC_REQ_SET_RES, UAC_REQ_GET_MAX, UAC_REQ_GET_MIN,
      UAC_REQ_GET_RES, UAC_REQ_GET_CUR, UAC_REQ_SET_CUR, UAC_FU_MUTE_CONTROL,
      UAC_FU_VOLUME_CONTROL, receiveData, notify_mute, writeByte, h1, h2]

def d0 : Nat → Nat := fun j => if j = 1 then 1 else 0

theorem C7_mute_roundtrip_witness :
    ∃ s3 : CtrlState,
      notify_mute (receiveData { ctrlA with control_channel := 0xff } d0 3) =
        some s3 ∧
      s3.mute0 = true ∧ s3.mute1 = false ∧
      (audio_volume_control 0x81 0x01 0xff 3 s3).map
          (fun o => (o.handled, o.st.control_data 0, o.st.control_data 1,
                     o.st.control_data 2)) =
        some (true, 0, 1, 0) :=
  (C7_mute_roundtrip ctrlA d0 rfl rfl).2

/-! ## C9 — unvalidated channel selector -/

lemma arr2get_isSome {α : Type} (a b : α) (channel : Nat) :
    ((arr2get a b ((channel : Int) - 1)).isSome = true) ↔
      (channel = 1 ∨ channel = 2) := by
  unfold arr2get
  split_ifs <;> simp <;> omega

lemma arr2set_isSome {α : Type} (a b v : α) (channel : Nat) :
    ((arr2set a b ((channel : Int) - 1) v).isSome = true) ↔
      (channel = 1 ∨ channel = 2) := by
  unfold arr2set
  split_ifs <;> simp <;> omega

/-- C9: for any selector other than 0xFF, the single-channel mute and volume
GET_CUR paths and both SET_CUR completion callbacks index the 2-element
arrays at channel-1 without validation, so the guarded access succeeds
exactly when the selector is 1 or 2; in particular selector 0 makes the
GET_CUR mute path fail (index -1). -/
theorem C9_channel_guard (channel length : Nat) (s : CtrlState)
    (h : channel ≠ 0xff) :
    (((audio_volume_control 0x81 0x01 channel length s).isSome = true) ↔
      (channel = 1 ∨ channel = 2)) ∧
    (((audio_volume_control 0x81 0x02 channel length s).isSome = true) ↔
      (channel = 1 ∨ channel = 2)) ∧
    (((notify_mute { s with control_channel := channel }).isSome = true) ↔
      (channel = 1 ∨ channel = 2)) ∧
    (((notify_volume { s with control_channel := channel }).isSome = true) ↔
      (channel = 1 ∨ channel = 2)) ∧
    audio_volume_control 0x81 0x01 0 length s = none := by
  have e1 : audio_volume_control 0x81 0x01 channel length s =
      (arr2get s.mute0 s.mute1 ((channel : Int) - 1)).map
        (fun b => (⟨true, { s with control_data := writeByte s.control_data 0 (cond b 1 0) }, some ⟨length, none⟩⟩ : ACOut)) := by
    cases harr : arr2get s.mute0 s.mute1 ((channel : Int) - 1) <;>
      simp [audio_volume_control, stage_get_cur, UAC_REQ_SET_MAX,
        UAC_REQ_SET_MIN, UAC_REQ_SET_RES, UAC_REQ_GET_MAX, UAC_REQ_GET_MIN,
        UAC_REQ_GET_RES, UAC_REQ_GET_CUR, UAC_REQ_SET_CUR, UAC_FU_MUTE_CONTROL,
        UAC_FU_VOLUME_CONTROL, h, harr]
  have e2 : audio_volume_control 0x81 0x02 channel length s =
      (arr2get s.vol0 s.vol1 ((channel : Int) - 1)).map
        (fun v => (⟨true, { s with control_data := writeLE16 s.control_data 0 v }, some ⟨length, none⟩⟩ : ACOut)) := by
    cases harr : arr2get s.vol0 s.vol1 ((channel : Int) - 1) <;>
      simp [audio_volume_control, stage_get_cur, UAC_REQ_SET_MAX,
        UAC_REQ_SET_MIN, UAC_REQ_SET_RES, UAC_REQ_GET_MAX, UAC_REQ_GET_MIN,
        UAC_REQ_GET_RES, UAC_REQ_GET_CUR, UAC_REQ_SET_CUR, UAC_FU_MUTE_CONTROL,
        UAC_FU_VOLUME_CONTROL, h, harr]
  have e3 : notify_mute { s with control_channel := channel } =
      (arr2set s.mute0 s.mute1 ((channel : Int) - 1) (s.control_data 0 != 0)).map
        (fun p => { s with control_channel := channel, mute0 := p.1, mute1 := p.2 }) := by
    rcases harr : arr2set s.mute0 s.mute1 ((channel : Int) - 1)
        (s.control_data 0 != 0) with _ | ⟨m0, m1⟩ <;>
      simp [notify_mute, h, harr]
  have e4 : notify_volume { s with control_channel := channel } =
      (arr2set s.vol0 s.vol1 ((channel : Int) - 1)
          (s.control_data 0 + 256 * s.control_data 1)).map
        (fun p => { s with control_channel := channel, vol0 := p.1, vol1 := p.2 }) := by
    rcases harr : arr2set s.vol0 s.vol1 ((channel : Int) - 1)
        (s.control_data 0 + 256 * s.control_data 1) with _ | ⟨v0, v1⟩ <;>
      simp [notify_volume, h, harr]
  refine ⟨?_, ?_, ?_, ?_, rfl⟩
  · rw [e1, Option.isSome_map']
    exact arr2get_isSome s.mute0 s.mute1 channel
  · rw [e2, Option.isSome_map']
    exact arr2get_isSome s.vol0 s.vol1 channel
  · rw [e3, Option.isSome_map']
    exact arr2set_isSome s.mute0 s.mute1 (s.control_data 0 != 0) channel
  · rw [e4, Option.isSome_map']
    exact arr2set_isSome s.vol0 s.vol1
      (s.control_data 0 + 256 * s.control_data 1) channel

theorem C9_channel_guard_witness :
    audio_volume_control 0x81 0x01 0 1 ctrlA = none :=
  (C9_channel_guard 0 1 ctrlA (by decide)).2.2.2.2

/-! ## C8 — volume GET_MIN value -/

/-- C8: a volume GET_MIN stages, for each of the `length` requested 16-bit
values, the little-endian encoding of -96*256 = -24576 (uint16 pattern
40960, bytes 0x00 0xA0), arms a transfer of `length` bytes from the staging
buffer, and for length = 2 the two transferred bytes are [0, 160]. -/
theorem C8_get_min_volume (s : CtrlState) (channel length : Nat) :
    audio_volume_control 0x82 0x02 channel length s =
      some ⟨true, { s with control_data := writeElems s.control_data 40960 length },
            some ⟨length, none⟩⟩ ∧
    (∀ i, i < length →
      writeElems s.control_data 40960 length (2 * i) = 0 ∧
      writeElems s.control_data 40960 length (2 * i + 1) = 160) ∧
    [writeElems s.control_data 40960 2 0, writeElems s.control_data 40960 2 1] =
      [0, 160] ∧
    (-96 * 256 : Int) % 65536 = 40960 ∧ (0 + 256 * 160 : Nat) = 40960 := by
  refine ⟨rfl, ?_, ?_, by decide, by norm_num⟩
  · intro i hi
    constructor
    · rw [writeElems_lo s.control_data 40960 length i hi]
    · rw [writeElems_hi s.control_data 40960 length i hi]
  · have h0 := writeElems_lo s.control_data 40960 2 0 (by omega)
    have h1 := writeElems_hi s.control_data 40960 2 0 (by omega)
    norm_num at h0 h1
    simp [h0, h1]

/-! ## C10 — GET_MAX/MIN/RES write footprint -/

/-- C10: volume GET_MAX, GET_MIN and GET_RES write `length` 16-bit elements
(bytes 0 .. 2*length-1) into the staging buffer; the writes touch no byte at
offset ≥ 2*length, hence stay inside the 8-byte control_data array whenever
length ≤ 4, and for length ≥ 5 the byte at offset 8 is overwritten. -/
theorem C10_get_range (length channel : Nat) (s : CtrlState) :
    (audio_volume_control 0x83 0x02 channel length s).map (fun o => o.st.control_data) =
      some (writeElems s.control_data 0 length) ∧
    (audio_volume_control 0x82 0x02 channel length s).map (fun o => o.st.control_data) =
      some (writeElems s.control_data 40960 length) ∧
    (audio_volume_control 0x84 0x02 channel length s).map (fun o => o.st.control_data) =
      some (writeElems s.control_data 128 length) ∧
    (∀ v j, 2 * length ≤ j → writeElems s.control_data v length j = s.control_data j) ∧
    (length ≤ 4 → ∀ v j, 8 ≤ j →
      writeElems s.control_data v length j = s.control_data j) ∧
    (5 ≤ length →
      writeElems (fun _ => 1) 0 length 8 = 0 ∧
      writeElems (fun _ => 1) 40960 length 8 = 0 ∧
      writeElems (fun _ => 1) 128 length 8 = 128) := by
  refine ⟨rfl, rfl, rfl, ?_, ?_, ?_⟩
  · intro v j hj
    exact writeElems_ge s.control_data v length j hj
  · intro hlen v j hj
    exact writeElems_ge s.control_data v length j (by omega)
  · intro hlen
    have h0 := writeElems_lo (fun _ => 1) 0 length 4 (by omega)
    have h1 := writeElems_lo (fun _ => 1) 40960 length 4 (by omega)
    have h2 := writeElems_lo (fun _ => 1) 128 length 4 (by omega)
    norm_num at h0 h1 h2
    exact ⟨h0, h1, h2⟩

end USBAudioI2S
